import Mathlib

/-!
# Verification of the envoy-web battery-profile client

Shallow embedding of `custom_components/envoy_web/api.py`: the exception
hierarchy, the JSON payload validation, the token manager (cache, login retry,
invalidation) and the request/retry loop of `EnvoyWebApi`, together with proofs
of the specified properties.

Conventions:
- Python strings-or-`None` are `Option String`; Python truthiness of such a
  value (`if not token:`) is `strTruthy`.
- JSON payloads (the result of `resp.json()`) are the inductive `Json`;
  Python `isinstance` checks on them are embedded as `Json.isDict` /
  `Json.isStr` / `Json.isInt`.  Note that Python `bool` is a subclass of
  `int`, so `isinstance(True, int)` holds: `Json.isInt` is true on booleans.
- The network is an environment supplying the outcome of each HTTP exchange;
  executions additionally produce a trace of observable events (requests
  issued, cache invalidations, logins, backoff sleeps).
-/

namespace EnvoyWeb

/-! ## Exception classes (api.py lines 66-71 and the Python builtins involved) -/

/-- The Python exception classes raised by the client: the two classes declared
in api.py (`class EnvoyWebApiError(Exception)`, `class
EnvoyWebAuthError(EnvoyWebApiError)`) plus the builtin `ValueError` raised by
input validation, all rooted at `Exception`. -/
inductive ExcClass where
  | exception
  | envoyWebApiError
  | envoyWebAuthError
  | valueError
deriving DecidableEq, Repr

/-- Python method resolution order: the class followed by its base classes, as
declared in the source (`EnvoyWebAuthError` inherits from `EnvoyWebApiError`,
which inherits from `Exception`; `ValueError` is a builtin rooted at
`Exception`). -/
def ExcClass.mro : ExcClass → List ExcClass
  | .exception => [.exception]
  | .envoyWebApiError => [.envoyWebApiError, .exception]
  | .envoyWebAuthError => [.envoyWebAuthError, .envoyWebApiError, .exception]
  | .valueError => [.valueError, .exception]

/-- Python `isinstance(e, target)` for exception classes: the dynamic class
equals `target` or inherits from it. -/
def ExcClass.isInstanceOf (c target : ExcClass) : Bool :=
  target ∈ c.mro

/-- A raised Python exception: its dynamic class and its message. -/
structure PyError where
  cls : ExcClass
  msg : String
deriving DecidableEq, Repr

/-- Whether an `except handler:` clause catches the raised error `e`. -/
def excMatches (e : PyError) (handler : ExcClass) : Bool :=
  e.cls.isInstanceOf handler

/-- Python `except` clause selection in a `try` with several handlers: the
first handler in source order whose class the raised error is an instance of. -/
def firstHandler (e : PyError) : List ExcClass → Option ExcClass
  | [] => none
  | h :: rest => if excMatches e h then some h else firstHandler e rest

/-! ## Python string truthiness -/

/-- Python truthiness of a `str | None` value (`if not token:`): `None` and the
empty string are falsy. -/
def strTruthy : Option String → Bool
  | none => false
  | some s => s ≠ ""

/-! ## JSON values (the result of `resp.json()`) -/

/-- A decoded JSON document as produced by Python's `json` deserialization:
`null`/`bool`/`int`/`float`/`str`/array/object.  Object keys are assumed
distinct (Python's decoder keeps one value per key).  The numeric payload of a
float is irrelevant to every check in the source (`isinstance` against `dict`,
`str` and `int` are all false on a float), so it is carried as a rational. -/
inductive Json where
  | null
  | bool (b : Bool)
  | int (n : Int)
  | float (q : ℚ)
  | str (s : String)
  | arr (xs : List Json)
  | obj (kvs : List (String × Json))

/-- Python `payload.get(key)` on a JSON object: `none` when the value is not an
object or the key is absent (Python returns `None` in the latter case, which
every subsequent `isinstance` check rejects, as does a present JSON `null`). -/
def Json.get? : Json → String → Option Json
  | .obj kvs, k => kvs.lookup k
  | _, _ => none

/-- Python `isinstance(v, dict)` on a decoded JSON value. -/
def Json.isDict : Json → Bool
  | .obj _ => true
  | _ => false

/-- Python `isinstance(v, str)` on a decoded JSON value. -/
def Json.isStr : Json → Bool
  | .str _ => true
  | _ => false

/-- Python `isinstance(v, int)` on a decoded JSON value.  `bool` is a subclass
of `int` in Python, so a decoded JSON boolean passes this check. -/
def Json.isInt : Json → Bool
  | .int _ => true
  | .bool _ => true
  | _ => false

/-! ## Constants (api.py lines 26-55) -/

def MAX_REQUEST_RETRIES : Nat := 2

def MAX_TOKEN_RETRIES : Nat := 2

def RETRY_BACKOFF_SECONDS : ℚ := 1 / 2

def BASE_URL : String := "https://enlighten.enphaseenergy.com"

def LOGIN_URL : String := BASE_URL ++ "/login/login"

/-- Embeds `_backoff_delay` (api.py lines 54-55):
`_RETRY_BACKOFF_SECONDS * (2**attempt)` seconds. -/
def backoffDelay (attempt : Nat) : ℚ :=
  RETRY_BACKOFF_SECONDS * 2 ^ attempt

/-- Embeds `ALLOWED_PROFILES` (api.py line 23); a set literal in the source,
used only through membership tests. -/
def ALLOWED_PROFILES : List String := ["self-consumption", "backup_only"]

/-- Embeds `EnvoyWebConfig` (api.py lines 58-63). -/
structure EnvoyWebConfig where
  battery_id : Int
  user_id : Int
  email : String
  password : String
deriving DecidableEq, Repr

/-- Embeds `EnvoyWebApi._url` (api.py lines 331-335). -/
def urlGet (cfg : EnvoyWebConfig) : String :=
  "https://enlighten.enphaseenergy.com/service/batteryConfig/api/v1/profile/" ++
    toString cfg.battery_id ++ "?source=enho&userId=" ++ toString cfg.user_id ++ "&locale=en"

/-- Embeds `EnvoyWebApi._url_put` (api.py lines 337-341). -/
def urlPut (cfg : EnvoyWebConfig) : String :=
  "https://enlighten.enphaseenergy.com/service/batteryConfig/api/v1/profile/" ++
    toString cfg.battery_id ++ "?userId=" ++ toString cfg.user_id

/-! ## Profile payload validation (api.py lines 377-400) -/

/-- Embeds `EnvoyWebApi._extract_profile_details` (api.py lines 377-400).
Each `isinstance` check and the non-emptiness check on `profile` are taken
directly from the source; the accepted `batteryBackupPercentage` value is
returned as the original JSON value, exactly as Python returns the original
object (which may be a boolean, since `isinstance(True, int)` holds).  The
source's error messages quote key names in single quotes; the quotes are
elided here. -/
def extractProfileDetails (payload : Json) : Except PyError (String × Json) :=
  if !payload.isDict then
    .error ⟨.envoyWebApiError, "Unexpected response shape (expected object)"⟩
  else
    match payload.get? "data" with
    | some data =>
      if !data.isDict then
        .error ⟨.envoyWebApiError, "Unexpected response shape (missing/invalid data object)"⟩
      else
        match data.get? "profile" with
        | some (.str s) =>
          if s = "" then
            .error ⟨.envoyWebApiError, "Unexpected response shape (missing/invalid data.profile)"⟩
          else
            match data.get? "batteryBackupPercentage" with
            | some v =>
              if v.isInt then
                .ok (s, v)
              else
                .error ⟨.envoyWebApiError,
                  "Unexpected response shape (missing/invalid data.batteryBackupPercentage)"⟩
            | none =>
              .error ⟨.envoyWebApiError,
                "Unexpected response shape (missing/invalid data.batteryBackupPercentage)"⟩
        | _ =>
          .error ⟨.envoyWebApiError, "Unexpected response shape (missing/invalid data.profile)"⟩
    | none =>
      .error ⟨.envoyWebApiError, "Unexpected response shape (missing/invalid data object)"⟩

/-- The response shape the specification requires of the profile endpoint,
stated in the spec's own words: a JSON object containing a `data` object with
a string `profile` and an integer `batteryBackupPercentage`.  (A JSON boolean
is not an integer.)  Used to compare the spec's claim with
`extractProfileDetails`. -/
def specGoodShape (payload : Json) : Bool :=
  payload.isDict &&
    (match payload.get? "data" with
     | some data =>
       data.isDict &&
         (match data.get? "profile" with
          | some (.str _) => true
          | _ => false) &&
         (match data.get? "batteryBackupPercentage" with
          | some (.int _) => true
          | _ => false)
     | none => false)

/-! ## Login page scraping (api.py lines 97-130 and 283-304) -/

/-- An `<input ...>` tag of the login page, abstracted to the three attributes
`_parse_login_form` extracts with its attribute regexes: `name` (absent when
the name regex does not match; the tag is then skipped), `type` and `value`
(each absent when its regex does not match; `value` is carried already
HTML-unescaped, as the source applies `html.unescape`). -/
structure InputTag where
  name : Option String
  input_type : Option String
  value : Option String

/-- Python dict assignment `result[name] = value`: overwrite an existing key in
place, else append (insertion order preserved, as Python dicts do). -/
def dictInsert (kvs : List (String × String)) (k v : String) : List (String × String) :=
  if kvs.any (fun p => p.1 = k) then
    kvs.map (fun p => if p.1 = k then (k, v) else p)
  else
    kvs ++ [(k, v)]

/-- Embeds `_parse_login_form` (api.py lines 283-304) over pre-tokenized input
tags: the regex scan that splits the HTML into `<input ...>` tags and pulls
out each tag's `name`/`type`/`value` attributes is abstracted as the
`InputTag` list; the selection logic — skip tags without a name, keep a tag
when its lowercased type is `hidden` or its name is `utf8` or
`authenticity_token`, defaulting a missing type or value to the empty
string — is embedded as in the source. -/
def parseLoginForm (inputs : List InputTag) : List (String × String) :=
  if inputs.isEmpty then []
  else
    inputs.foldl
      (fun result tag =>
        match tag.name with
        | none => result
        | some name =>
          let input_type := (tag.input_type.getD "").toLower
          let value := tag.value.getD ""
          if input_type = "hidden" || name = "utf8" || name = "authenticity_token" then
            dictInsert result name value
          else result)
      []

/-- The login page HTML, abstracted to the two features
`async_fetch_xsrf_token` reads from it: the `<input ...>` tags and the content
captured by the `<meta name="csrf-token" content="([^"]+)"` regex (absent when
the regex does not match; nonempty when present, but possibly all
whitespace — the source applies `.strip()` afterwards). -/
structure LoginPage where
  inputs : List InputTag
  metaCsrf : Option String

/-- The URL requested by `async_fetch_xsrf_token` (api.py line 105): the
session GET goes to `_BASE_URL` itself. -/
def fetchXsrfUrl : String := BASE_URL

/-- The value of `self._login_form_defaults.get("authenticity_token")` guarded
by `if self._login_form_defaults:` (api.py lines 117-120): `none` when the
parsed form dict is empty. -/
def loginFormAuthToken (page : LoginPage) : Option String :=
  let defaults := parseLoginForm page.inputs
  if defaults ≠ [] then defaults.lookup "authenticity_token" else none

/-- Embeds the token selection of `async_fetch_xsrf_token` (api.py lines
117-130): prefer the form's `authenticity_token` when truthy, else fall back
to the stripped meta CSRF content, and raise `EnvoyWebAuthError` when the
result is still falsy. -/
def fetchXsrfToken (page : LoginPage) : Except PyError String :=
  let token1 := loginFormAuthToken page
  let token2 :=
    if strTruthy token1 then token1
    else
      match page.metaCsrf with
      | some content => some content.trim
      | none => token1
  match token2 with
  | some s =>
    if s = "" then .error ⟨.envoyWebAuthError, "Missing csrf-token meta tag on login page"⟩
    else .ok s
  | none => .error ⟨.envoyWebAuthError, "Missing csrf-token meta tag on login page"⟩

/-! ## Auth token extraction (api.py lines 183-217) -/

/-- Embeds the outcome handling of `async_fetch_auth_token` after the login
POST (api.py lines 202-217): any status outside {200, 302, 303} is an
`EnvoyWebAuthError`; otherwise the session token is read from the cookie jar
(`cookieToken`), falling back to parsing the `Set-Cookie` headers directly
(`setCookieToken`, whose regex `enlighten_manager_token_production=([^;]+)`
yields a nonempty match when present); a still-falsy token is an
`EnvoyWebAuthError`. -/
def fetchAuthToken (status : Nat) (cookieToken setCookieToken : Option String) :
    Except PyError String :=
  if !(status = 200 || status = 302 || status = 303) then
    .error ⟨.envoyWebAuthError, "Login failed with HTTP " ++ toString status⟩
  else if strTruthy cookieToken then .ok (cookieToken.getD "")
  else if strTruthy setCookieToken then .ok (setCookieToken.getD "")
  else .error ⟨.envoyWebAuthError,
    "Missing enlighten_manager_token_production cookie after login"⟩

/-- `async_fetch_auth_token` never returns a falsy token: the `if not token`
guard raises before the return. -/
theorem fetchAuthToken_ok_ne_empty (status : Nat) (c s : Option String) (tok : String)
    (h : fetchAuthToken status c s = .ok tok) : tok ≠ "" := by
  unfold fetchAuthToken at h
  split at h
  · simp at h
  · by_cases htc : strTruthy c = true
    · rw [if_pos htc] at h
      injection h with h
      subst h
      cases c with
      | none => simp [strTruthy] at htc
      | some v => simpa [strTruthy] using htc
    · rw [if_neg htc] at h
      by_cases hts : strTruthy s = true
      · rw [if_pos hts] at h
        injection h with h
        subst h
        cases s with
        | none => simp [strTruthy] at hts
        | some v => simpa [strTruthy] using hts
      · rw [if_neg hts] at h
        simp at h

/-! ## Login retry loop (api.py lines 249-259) -/

/-- The outcome of one call to `async_login_and_get_tokens`, supplied by the
environment: success with the `(xsrf, auth)` pair, an explicit
`EnvoyWebAuthError`, or a transient transport failure (`TimeoutError` /
`ClientError`). -/
inductive LoginStep where
  | ok (xsrf : Option String) (auth : String)
  | authErr (msg : String)
  | transportErr

/-- Embeds the loop body of `_async_login_with_retry` (api.py lines 249-259):
`fuel` is the number of loop iterations remaining out of
`range(_MAX_TOKEN_RETRIES)` and `attempt` the current index.  Returns the
result together with the list of backoff sleeps performed.  The `fuel = 0`
case is the fall-through `raise EnvoyWebApiError` after the loop (api.py line
259, unreachable in the source since the final iteration always raises). -/
def loginWithRetryAux (env : Nat → LoginStep) : Nat → Nat →
    Except PyError ((Option String) × String) × List ℚ
  | 0, _ => (.error ⟨.envoyWebApiError, "Failed to authenticate"⟩, [])
  | fuel + 1, attempt =>
    match env attempt with
    | .ok xsrf auth => (.ok (xsrf, auth), [])
    | .authErr msg => (.error ⟨.envoyWebAuthError, msg⟩, [])
    | .transportErr =>
      if attempt ≥ MAX_TOKEN_RETRIES - 1 then
        (.error ⟨.envoyWebApiError, "Failed to authenticate"⟩, [])
      else
        let rest := loginWithRetryAux env fuel (attempt + 1)
        (rest.1, backoffDelay attempt :: rest.2)

/-- Embeds `_async_login_with_retry` (api.py lines 249-259): up to
`_MAX_TOKEN_RETRIES` attempts of the whole login sequence, retrying only on
transport failures, re-raising `EnvoyWebAuthError` unchanged, and converting
exhaustion into a generic `EnvoyWebApiError`. -/
def loginWithRetry (env : Nat → LoginStep) :
    Except PyError ((Option String) × String) × List ℚ :=
  loginWithRetryAux env MAX_TOKEN_RETRIES 0

/-! ## Token cache (api.py lines 74-86, 226-230, 261-269) -/

/-- The token manager's cached token fields `_xsrf_token` and `_auth_token`
(api.py lines 82-83), both `str | None`. -/
structure TokenState where
  xsrf : Option String
  auth : Option String
deriving DecidableEq, Repr

/-- Embeds `async_invalidate` (api.py lines 226-230): clear both cached
tokens (the lock only serializes this write against other critical
sections). -/
def invalidate (_st : TokenState) : TokenState := ⟨none, none⟩

/-- Embeds one call to `async_get_tokens` (api.py lines 261-269), the whole
body running under the manager's `asyncio.Lock`: if the cached `_auth_token`
is truthy, return the cached pair; otherwise perform one
`_async_login_with_retry` (its result supplied by `login`), cache both fields
on success, and propagate its exception on failure.  The third component
records whether a login was performed. -/
def getTokens (st : TokenState) (login : Except PyError ((Option String) × String)) :
    Except PyError ((Option String) × String) × TokenState × Bool :=
  if strTruthy st.auth then
    (.ok (st.xsrf, st.auth.getD ""), st, false)
  else
    match login with
    | .ok (xsrf, auth) => (.ok (xsrf, auth), ⟨xsrf, some auth⟩, true)
    | .error e => (.error e, st, true)

/-- A concurrent burst of `n` calls to `async_get_tokens` on one token
manager: the body of `async_get_tokens` runs entirely inside `async with
self._lock`, so the `asyncio.Lock` makes each call's critical section atomic
and a concurrent burst executes as a sequence of calls on the shared state
(the callers are identical, so the interleaving order is immaterial).  Every
cache miss performs one login, whose result `login` the environment supplies
identically to each caller.  Returns the final state and the number of login
sequences triggered. -/
def burstGetTokens (n : Nat) (st : TokenState)
    (login : Except PyError ((Option String) × String)) : TokenState × Nat :=
  match n with
  | 0 => (st, 0)
  | n + 1 =>
    let step := getTokens st login
    let rest := burstGetTokens n step.2.1 login
    (rest.1, (if step.2.2 then 1 else 0) + rest.2)

/-! ## The request/retry loop (api.py lines 343-358 and 402-440) -/

/-- The outcome of one HTTP exchange attempted by `_request_json`, supplied by
the environment: a transient transport failure (`TimeoutError`/`ClientError`
raised while issuing the request or reading the response), or a response with
its status, its optional `x-csrf-token` header and its decoded JSON body.
(A body that fails JSON decoding is outside the model; no claim depends on
it.) -/
inductive ReqStep where
  | transportErr
  | resp (status : Nat) (xsrfHeader : Option String) (body : Json)

/-- The environment of one logical operation: the outcome of each request
attempt (indexed by the loop's attempt counter), the outcomes of the
underlying `async_login_and_get_tokens` attempts (indexed first by how many
login sequences the operation has performed so far, then by the attempt index
inside `_async_login_with_retry`), and the cookie-jar XSRF value read by the
fallback in `_headers`. -/
structure ReqEnv where
  reqs : Nat → ReqStep
  loginSteps : Nat → Nat → LoginStep
  xsrfCookie : Option String

/-- The result of the `k`-th `_async_login_with_retry` call of the operation:
the retry loop run over the environment's login-attempt outcomes. -/
def ReqEnv.loginResult (env : ReqEnv) (k : Nat) :
    Except PyError ((Option String) × String) :=
  (loginWithRetry (env.loginSteps k)).1

/-- Observable events of one logical operation: an HTTP request issued (with
the token material it carried; a request that then fails in transport still
counts as issued), a token-cache invalidation, a login sequence performed,
and a backoff sleep. -/
inductive Ev where
  | request (method url : String) (authToken : String) (xsrfToken : Option String)
  | cacheInvalidated
  | loginPerformed
  | sleep (d : ℚ)
deriving DecidableEq, Repr

def Ev.isRequest : Ev → Bool
  | .request _ _ _ _ => true
  | _ => false

def Ev.isInvalidation : Ev → Bool
  | .cacheInvalidated => true
  | _ => false

def Ev.isLogin : Ev → Bool
  | .loginPerformed => true
  | _ => false

/-- Number of HTTP requests issued in a trace. -/
def countRequests (evs : List Ev) : Nat := (evs.filter Ev.isRequest).length

/-- Number of token-cache invalidations in a trace. -/
def countInvalidations (evs : List Ev) : Nat := (evs.filter Ev.isInvalidation).length

/-- Number of login sequences performed in a trace. -/
def countLogins (evs : List Ev) : Nat := (evs.filter Ev.isLogin).length

/-- The auth tokens carried by the issued requests, in order. -/
def requestAuths (evs : List Ev) : List String :=
  evs.filterMap fun e =>
    match e with
    | .request _ _ a _ => some a
    | _ => none

/-- The `(method, url)` pairs of the issued requests, in order. -/
def requestTargets (evs : List Ev) : List (String × String) :=
  evs.filterMap fun e =>
    match e with
    | .request m u _ _ => some (m, u)
    | _ => none

/-- The mutable state threaded through one logical operation: the token
manager's cached tokens and the number of logins performed so far (the index
into `ReqEnv.logins`). -/
structure RunState where
  tokens : TokenState
  loginCalls : Nat
deriving DecidableEq, Repr

/-- Embeds `EnvoyWebApi._headers` (api.py lines 343-358) restricted to the
token material it puts into the headers: fetch tokens via `async_get_tokens`
(performing at most one login, whose result the environment supplies), then
fall back to the cookie-jar XSRF value (`get_xsrf_cookie`) when the returned
XSRF is falsy.  The remaining header fields (username, content-type, origin,
referer, a fresh request id) are fixed values no claim depends on. -/
def headersStep (env : ReqEnv) (rs : RunState) :
    Except PyError ((Option String) × String) × RunState × List Ev :=
  let r := getTokens rs.tokens (env.loginResult rs.loginCalls)
  let rs' : RunState := ⟨r.2.1, rs.loginCalls + (if r.2.2 then 1 else 0)⟩
  let evs : List Ev := if r.2.2 then [.loginPerformed] else []
  match r.1 with
  | .ok (xsrf, auth) =>
    let xsrf' := if strTruthy xsrf then xsrf else env.xsrfCookie
    (.ok (xsrf', auth), rs', evs)
  | .error e => (.error e, rs', evs)

/-- Embeds the loop body of `_request_json` (api.py lines 409-437): `fuel` is
the number of iterations remaining out of `range(_MAX_REQUEST_RETRIES)`,
`attempt` the current index, `authRetry` the `auth_retry` flag.  Per
iteration: build headers (a failure of the token fetch propagates — it is
either an `EnvoyWebAuthError`, re-raised by the dedicated handler, or a
generic `EnvoyWebApiError`, caught by no handler), issue the request, capture
a truthy `x-csrf-token` response header into the cache, then dispatch on the
status: 401/403 invalidates the cache and either raises `EnvoyWebAuthError`
(when `auth_retry` is already set or the budget is exhausted) or sets
`auth_retry` and continues; any other status ≥ 400 makes
`resp.raise_for_status()` raise a `ClientError`, which the transport handler
retries with backoff within the same budget, as it does a transport failure;
otherwise a non-object body is a terminal `EnvoyWebApiError` and an object
body is returned.  The `fuel = 0` case is the fall-through after the loop
(api.py lines 438-440, unreachable in the source since the final iteration
always returns or raises). -/
def requestJsonAux (env : ReqEnv) (method url : String) :
    Nat → Nat → Bool → RunState → Except PyError Json × RunState × List Ev
  | 0, _, authRetry, rs =>
    if authRetry then (.error ⟨.envoyWebAuthError, "Authentication failed"⟩, rs, [])
    else (.error ⟨.envoyWebApiError, "Request failed"⟩, rs, [])
  | fuel + 1, attempt, authRetry, rs =>
    match headersStep env rs with
    | (.error e, rs1, evs1) => (.error e, rs1, evs1)
    | (.ok (xsrfTok, authTok), rs1, evs1) =>
      let evs2 := evs1 ++ [.request method url authTok xsrfTok]
      match env.reqs attempt with
      | .transportErr =>
        if attempt ≥ MAX_REQUEST_RETRIES - 1 then
          (.error ⟨.envoyWebApiError, "Request failed"⟩, rs1, evs2)
        else
          let rest := requestJsonAux env method url fuel (attempt + 1) authRetry rs1
          (rest.1, rest.2.1, evs2 ++ Ev.sleep (backoffDelay attempt) :: rest.2.2)
      | .resp status xsrfHeader body =>
        let rs2 := if strTruthy xsrfHeader then
            RunState.mk ⟨xsrfHeader, rs1.tokens.auth⟩ rs1.loginCalls
          else rs1
        if status = 401 ∨ status = 403 then
          let rs3 : RunState := ⟨invalidate rs2.tokens, rs2.loginCalls⟩
          let evs3 := evs2 ++ [Ev.cacheInvalidated]
          if authRetry ∨ attempt ≥ MAX_REQUEST_RETRIES - 1 then
            (.error ⟨.envoyWebAuthError, "Authentication failed"⟩, rs3, evs3)
          else
            let rest := requestJsonAux env method url fuel (attempt + 1) true rs3
            (rest.1, rest.2.1, evs3 ++ rest.2.2)
        else if 400 ≤ status then
          if attempt ≥ MAX_REQUEST_RETRIES - 1 then
            (.error ⟨.envoyWebApiError, "Request failed"⟩, rs2, evs2)
          else
            let rest := requestJsonAux env method url fuel (attempt + 1) authRetry rs2
            (rest.1, rest.2.1, evs2 ++ Ev.sleep (backoffDelay attempt) :: rest.2.2)
        else
          if body.isDict then (.ok body, rs2, evs2)
          else
            (.error ⟨.envoyWebApiError, "Unexpected response shape (expected object)"⟩,
              rs2, evs2)

/-- Embeds `_request_json` (api.py lines 402-440): the loop entered with the
full budget, attempt 0 and `auth_retry = False`, on a token manager whose
cached tokens are `st` and which has performed no login yet. -/
def requestJson (env : ReqEnv) (method url : String) (st : TokenState) :
    Except PyError Json × RunState × List Ev :=
  requestJsonAux env method url MAX_REQUEST_RETRIES 0 false ⟨st, 0⟩

/-! ## The two operations (api.py lines 442-463) -/

/-- Embeds `async_get_profile` (api.py lines 442-444): one `_request_json`
GET to `_url`, then `_extract_profile_details` on the returned payload (a
pure step that issues no further request). -/
def asyncGetProfile (env : ReqEnv) (cfg : EnvoyWebConfig) (st : TokenState) :
    Except PyError (String × Json) × RunState × List Ev :=
  let r := requestJson env "GET" (urlGet cfg) st
  match r.1 with
  | .ok payload => (extractProfileDetails payload, r.2.1, r.2.2)
  | .error e => (.error e, r.2.1, r.2.2)

/-- Embeds `async_set_profile` (api.py lines 446-463): the three `ValueError`
validations in source order (the percentage parameter is typed `int`, so the
`isinstance(battery_backup_percentage, int)` conjunct of the second check is
absorbed by the `Int` type here; the first message carries the offending
profile, whose `repr` quoting is elided), then one `_request_json` PUT to
`_url_put`, and on success the dict rebuilt from the validated inputs — the
PUT response body is not consulted for the returned state. -/
def asyncSetProfile (env : ReqEnv) (cfg : EnvoyWebConfig) (st : TokenState)
    (profile : String) (battery_backup_percentage : Int) :
    Except PyError (String × Int) × RunState × List Ev :=
  if profile ∉ ALLOWED_PROFILES then
    (.error ⟨.valueError, "Invalid profile: " ++ profile⟩, ⟨st, 0⟩, [])
  else if ¬(0 ≤ battery_backup_percentage ∧ battery_backup_percentage ≤ 100) then
    (.error ⟨.valueError, "battery_backup_percentage must be an integer between 0 and 100"⟩,
      ⟨st, 0⟩, [])
  else if profile = "backup_only" ∧ battery_backup_percentage ≠ 100 then
    (.error ⟨.valueError, "backup_only requires battery_backup_percentage to be 100"⟩,
      ⟨st, 0⟩, [])
  else
    let r := requestJson env "PUT" (urlPut cfg) st
    match r.1 with
    | .ok _ => (.ok (profile, battery_backup_percentage), r.2.1, r.2.2)
    | .error e => (.error e, r.2.1, r.2.2)

/-! ## Supporting lemmas -/

/-- The acceptance condition of `_extract_profile_details` under Python
`isinstance` semantics: a `data` object holding a non-empty string `profile`
and a `batteryBackupPercentage` that passes `isinstance(·, int)` — which a
JSON boolean also passes, `bool` being a subclass of `int`. -/
def pyGoodShape (payload : Json) : Bool :=
  payload.isDict &&
    (match payload.get? "data" with
     | some data =>
       data.isDict &&
         (match data.get? "profile" with
          | some (.str s) => s ≠ ""
          | _ => false) &&
         (match data.get? "batteryBackupPercentage" with
          | some v => v.isInt
          | none => false)
     | none => false)

theorem extractProfileDetails_cases (payload : Json) :
    (pyGoodShape payload = true ∧ ∃ v, extractProfileDetails payload = .ok v) ∨
    (pyGoodShape payload = false ∧
      ∃ m, extractProfileDetails payload = .error ⟨.envoyWebApiError, m⟩) := by
  unfold extractProfileDetails pyGoodShape
  cases h1 : payload.isDict
  · right
    simp
  · rcases hd : payload.get? "data" with _ | data
    · right
      simp
    · cases h2 : data.isDict
      · right
        simp [h2]
      · rcases hp : data.get? "profile" with _ | p
        · right
          simp [h2, hp]
        · cases p with
          | str s =>
            by_cases h3 : s = ""
            · subst h3
              right
              simp [h2, hp]
            · rcases hb : data.get? "batteryBackupPercentage" with _ | v
              · right
                simp [h2, hp, h3, hb]
              · cases h4 : v.isInt
                · right
                  simp [h2, hp, h3, hb, h4]
                · left
                  simp [h2, hp, h3, hb, h4]
          | null =>
            right
            simp [h2, hp]
          | bool b =>
            right
            simp [h2, hp]
          | int n =>
            right
            simp [h2, hp]
          | float q =>
            right
            simp [h2, hp]
          | arr xs =>
            right
            simp [h2, hp]
          | obj kvs =>
            right
            simp [h2, hp]

theorem extractProfileDetails_error_cls (payload : Json) (e : PyError)
    (h : extractProfileDetails payload = .error e) : e.cls = .envoyWebApiError := by
  rcases extractProfileDetails_cases payload with ⟨-, v, hv⟩ | ⟨-, m, hm⟩
  · rw [hv] at h
    simp at h
  · rw [hm] at h
    injection h with h
    rw [← h]

theorem countRequests_append (a b : List Ev) :
    countRequests (a ++ b) = countRequests a + countRequests b := by
  simp [countRequests]

theorem countRequests_cons_sleep (d : ℚ) (l : List Ev) :
    countRequests (Ev.sleep d :: l) = countRequests l := by
  simp [countRequests, Ev.isRequest]

theorem countRequests_cons_invalidated (l : List Ev) :
    countRequests (Ev.cacheInvalidated :: l) = countRequests l := by
  simp [countRequests, Ev.isRequest]

theorem countRequests_cons_login (l : List Ev) :
    countRequests (Ev.loginPerformed :: l) = countRequests l := by
  simp [countRequests, Ev.isRequest]

theorem countRequests_cons_request (m u a : String) (x : Option String) (l : List Ev) :
    countRequests (Ev.request m u a x :: l) = countRequests l + 1 := by
  simp [countRequests, Ev.isRequest, Nat.add_comm]

theorem countRequests_nil : countRequests [] = 0 := rfl

/-- Every error raised by `_async_login_with_retry` is an `EnvoyWebAuthError`
or a generic `EnvoyWebApiError`. -/
theorem loginWithRetryAux_error_cls (env : Nat → LoginStep) :
    ∀ (fuel attempt : Nat) (e : PyError),
      (loginWithRetryAux env fuel attempt).1 = .error e →
      e.cls = .envoyWebAuthError ∨ e.cls = .envoyWebApiError := by
  intro fuel
  induction fuel with
  | zero =>
    intro attempt e h
    injection h with h
    rw [← h]
    right
    rfl
  | succ n ih =>
    intro attempt e h
    unfold loginWithRetryAux at h
    cases henv : env attempt
    case ok x a =>
      rw [henv] at h
      simp at h
    case authErr m =>
      rw [henv] at h
      injection h with h
      rw [← h]
      left
      rfl
    case transportErr =>
      rw [henv] at h
      dsimp only at h
      by_cases hat : attempt ≥ MAX_TOKEN_RETRIES - 1
      · rw [if_pos hat] at h
        injection h with h
        rw [← h]
        right
        rfl
      · rw [if_neg hat] at h
        exact ih (attempt + 1) e h

/-- The trace of `_headers` contains no request events. -/
theorem headersStep_no_requests (env : ReqEnv) (rs : RunState) :
    countRequests (headersStep env rs).2.2 = 0 := by
  unfold headersStep getTokens
  by_cases hst : strTruthy rs.tokens.auth = true
  · simp [hst, countRequests]
  · rcases hl : env.loginResult rs.loginCalls with e | ⟨x, a⟩ <;>
      simp [hst, hl, countRequests, Ev.isRequest]

/-- Every error raised by the token fetch in `_headers` is an
`EnvoyWebAuthError` or a generic `EnvoyWebApiError`. -/
theorem headersStep_error_cls (env : ReqEnv) (rs : RunState) (e : PyError)
    (h : (headersStep env rs).1 = .error e) :
    e.cls = .envoyWebAuthError ∨ e.cls = .envoyWebApiError := by
  unfold headersStep getTokens at h
  by_cases hst : strTruthy rs.tokens.auth = true
  · simp [hst] at h
  · rcases hl : env.loginResult rs.loginCalls with e1 | ⟨x, a⟩
    · simp [hst, hl] at h
      have hcls := loginWithRetryAux_error_cls (env.loginSteps rs.loginCalls)
        MAX_TOKEN_RETRIES 0 e1 hl
      rw [← h]
      exact hcls
    · simp [hst, hl] at h

/-- `_headers` on an authenticated cache: no login, state unchanged, the
cached auth token is used and the cookie-jar XSRF is the fallback. -/
theorem headersStep_cached (env : ReqEnv) (st : TokenState) (k : Nat)
    (hst : strTruthy st.auth = true) :
    headersStep env ⟨st, k⟩ =
      (.ok (if strTruthy st.xsrf then st.xsrf else env.xsrfCookie, st.auth.getD ""),
        ⟨st, k⟩, []) := by
  unfold headersStep getTokens
  simp [hst]

/-- `_headers` on an empty cache with a successful login: the freshly fetched
tokens are cached and used. -/
theorem headersStep_login (env : ReqEnv) (st : TokenState) (k : Nat) (x : Option String)
    (a : String) (hst : strTruthy st.auth = false) (hl : env.loginResult k = .ok (x, a)) :
    headersStep env ⟨st, k⟩ =
      (.ok (if strTruthy x then x else env.xsrfCookie, a), ⟨⟨x, some a⟩, k + 1⟩,
        [.loginPerformed]) := by
  unfold headersStep getTokens
  simp [hst, hl]

/-- The request loop issues at most `fuel` requests. -/
theorem requestJsonAux_request_bound (env : ReqEnv) (method url : String) :
    ∀ (fuel attempt : Nat) (ar : Bool) (rs : RunState),
      countRequests (requestJsonAux env method url fuel attempt ar rs).2.2 ≤ fuel := by
  intro fuel
  induction fuel with
  | zero =>
    intro attempt ar rs
    cases ar <;> simp [requestJsonAux, countRequests]
  | succ n ih =>
    intro attempt ar rs
    unfold requestJsonAux
    rcases hh : headersStep env rs with ⟨res, rs1, evs1⟩
    have hevs : countRequests evs1 = 0 := by
      have h0 := headersStep_no_requests env rs
      rw [hh] at h0
      exact h0
    cases res with
    | error e =>
      simp [hevs]
    | ok p =>
      obtain ⟨xsrfTok, authTok⟩ := p
      cases hr : env.reqs attempt with
      | transportErr =>
        by_cases hat : attempt ≥ MAX_REQUEST_RETRIES - 1
        · simp [hat, hevs, countRequests_append, countRequests_cons_request,
            countRequests_nil]
        · have hrec := ih (attempt + 1) ar rs1
          simp [hat, hevs, countRequests_append, countRequests_cons_request,
            countRequests_cons_sleep, countRequests_nil]
          omega
      | resp status xsrfHeader body =>
        dsimp only
        split
        · split
          · simp [hevs, countRequests_append, countRequests_cons_request,
              countRequests_cons_invalidated, countRequests_nil]
          · simp only [countRequests_append, countRequests_cons_request,
              countRequests_cons_invalidated, countRequests_cons_sleep,
              countRequests_nil, hevs, Nat.zero_add, Nat.add_zero]
            rw [Nat.add_comm]
            exact Nat.succ_le_succ (ih _ _ _)
        · split
          · split
            · simp [hevs, countRequests_append, countRequests_cons_request,
                countRequests_nil]
            · simp only [countRequests_append, countRequests_cons_request,
                countRequests_cons_sleep, countRequests_nil, hevs,
                Nat.zero_add, Nat.add_zero]
              rw [Nat.add_comm]
              exact Nat.succ_le_succ (ih _ _ _)
          · split <;>
              simp [hevs, countRequests_append, countRequests_cons_request,
                countRequests_nil]

/-- Every error raised by `_request_json` is an `EnvoyWebAuthError` or a
generic `EnvoyWebApiError` — never a `ValueError`. -/
theorem requestJsonAux_error_cls (env : ReqEnv) (method url : String) :
    ∀ (fuel attempt : Nat) (ar : Bool) (rs : RunState) (e : PyError),
      (requestJsonAux env method url fuel attempt ar rs).1 = .error e →
      e.cls = .envoyWebAuthError ∨ e.cls = .envoyWebApiError := by
  intro fuel
  induction fuel with
  | zero =>
    intro attempt ar rs e h
    cases ar with
    | false =>
      injection h with h
      rw [← h]
      right
      rfl
    | true =>
      injection h with h
      rw [← h]
      left
      rfl
  | succ n ih =>
    intro attempt ar rs e h
    unfold requestJsonAux at h
    rcases hh : headersStep env rs with ⟨res, rs1, evs1⟩
    rw [hh] at h
    cases res with
    | error e1 =>
      dsimp only at h
      injection h with h
      rw [← h]
      exact headersStep_error_cls env rs e1 (by rw [hh])
    | ok p =>
      obtain ⟨xsrfTok, authTok⟩ := p
      dsimp only at h
      cases hr : env.reqs attempt <;> rw [hr] at h
      case transportErr =>
        dsimp only at h
        split at h
        · injection h with h
          rw [← h]
          right
          rfl
        · exact ih _ _ _ _ h
      case resp status xsrfHeader body =>
        dsimp only at h
        split at h
        · split at h
          · injection h with h
            rw [← h]
            left
            rfl
          · exact ih _ _ _ _ h
        · split at h
          · split at h
            · injection h with h
              rw [← h]
              right
              rfl
            · exact ih _ _ _ _ h
          · split at h
            · simp at h
            · injection h with h
              rw [← h]
              right
              rfl

/-- A `get_tokens` burst on an authenticated cache performs no login and
leaves the state unchanged. -/
theorem burstGetTokens_cached (login : Except PyError ((Option String) × String)) :
    ∀ (n : Nat) (st : TokenState), strTruthy st.auth = true →
      burstGetTokens n st login = (st, 0) := by
  intro n
  induction n with
  | zero =>
    intro st h
    rfl
  | succ k ih =>
    intro st h
    unfold burstGetTokens getTokens
    simp [h, ih st h]

/-- One unrolling of the request loop: a response that is neither 401/403 nor
an HTTP error returns the body when it is a JSON object and raises a terminal
`EnvoyWebApiError` otherwise. -/
theorem requestJsonAux_step_response_gen (env : ReqEnv) (method url : String)
    (fuel attempt : Nat) (ar : Bool) (rs : RunState) (xsrfSel : Option String) (auth : String)
    (rs1 : RunState) (evs1 : List Ev)
    (hh : headersStep env rs = (.ok (xsrfSel, auth), rs1, evs1))
    (status : Nat) (hdr : Option String) (body : Json)
    (h0 : env.reqs attempt = .resp status hdr body)
    (hs1 : ¬(status = 401 ∨ status = 403)) (hs2 : ¬(400 ≤ status)) :
    requestJsonAux env method url (fuel + 1) attempt ar rs =
      ((if body.isDict then .ok body
        else .error ⟨.envoyWebApiError, "Unexpected response shape (expected object)"⟩),
        (if strTruthy hdr then ⟨⟨hdr, rs1.tokens.auth⟩, rs1.loginCalls⟩ else rs1),
        evs1 ++ [.request method url auth xsrfSel]) := by
  unfold requestJsonAux
  rw [hh]
  dsimp only
  rw [h0]
  dsimp only
  rw [if_neg hs1, if_neg hs2]
  cases hb : body.isDict <;> simp [hb]

/-- One unrolling of the request loop: a 401/403 with the auth retry still
available and budget remaining invalidates the cache, sets the `auth_retry`
flag and re-enters the loop on the cleared cache. -/
theorem requestJsonAux_step_auth_retry_gen (env : ReqEnv) (method url : String)
    (fuel attempt : Nat) (rs : RunState) (xsrfSel : Option String) (auth : String)
    (rs1 : RunState) (evs1 : List Ev)
    (hh : headersStep env rs = (.ok (xsrfSel, auth), rs1, evs1))
    (status : Nat) (hdr : Option String) (body : Json)
    (h0 : env.reqs attempt = .resp status hdr body)
    (hs : status = 401 ∨ status = 403) (hlt : ¬(attempt ≥ MAX_REQUEST_RETRIES - 1)) :
    requestJsonAux env method url (fuel + 1) attempt false rs =
      ((requestJsonAux env method url fuel (attempt + 1) true
          ⟨⟨none, none⟩, rs1.loginCalls⟩).1,
        (requestJsonAux env method url fuel (attempt + 1) true
          ⟨⟨none, none⟩, rs1.loginCalls⟩).2.1,
        evs1 ++ .request method url auth xsrfSel :: .cacheInvalidated ::
          (requestJsonAux env method url fuel (attempt + 1) true
            ⟨⟨none, none⟩, rs1.loginCalls⟩).2.2) := by
  conv_lhs => rw [requestJsonAux.eq_def]
  dsimp only
  rw [hh]
  dsimp only
  rw [h0]
  dsimp only
  rw [if_pos hs]
  rw [if_neg (by simpa using hlt)]
  cases hhdr : strTruthy hdr <;> simp [invalidate]

/-- One unrolling of the request loop: a 401/403 when the auth retry has
already been used, or the budget is exhausted, invalidates the cache and
terminates with `EnvoyWebAuthError`. -/
theorem requestJsonAux_step_auth_fail_gen (env : ReqEnv) (method url : String)
    (fuel attempt : Nat) (ar : Bool) (rs : RunState) (xsrfSel : Option String) (auth : String)
    (rs1 : RunState) (evs1 : List Ev)
    (hh : headersStep env rs = (.ok (xsrfSel, auth), rs1, evs1))
    (status : Nat) (hdr : Option String) (body : Json)
    (h0 : env.reqs attempt = .resp status hdr body)
    (hs : status = 401 ∨ status = 403)
    (hcond : ar = true ∨ attempt ≥ MAX_REQUEST_RETRIES - 1) :
    requestJsonAux env method url (fuel + 1) attempt ar rs =
      (.error ⟨.envoyWebAuthError, "Authentication failed"⟩,
        ⟨⟨none, none⟩, rs1.loginCalls⟩,
        evs1 ++ [.request method url auth xsrfSel, .cacheInvalidated]) := by
  unfold requestJsonAux
  rw [hh]
  dsimp only
  rw [h0]
  dsimp only
  rw [if_pos hs, if_pos hcond]
  cases hhdr : strTruthy hdr <;> simp [invalidate]

/-- One unrolling of the request loop: a transport failure with budget
remaining sleeps the backoff delay and retries the same request. -/
theorem requestJsonAux_step_transport_gen (env : ReqEnv) (method url : String)
    (fuel attempt : Nat) (ar : Bool) (rs : RunState) (xsrfSel : Option String) (auth : String)
    (rs1 : RunState) (evs1 : List Ev)
    (hh : headersStep env rs = (.ok (xsrfSel, auth), rs1, evs1))
    (h0 : env.reqs attempt = .transportErr)
    (hlt : ¬(attempt ≥ MAX_REQUEST_RETRIES - 1)) :
    requestJsonAux env method url (fuel + 1) attempt ar rs =
      ((requestJsonAux env method url fuel (attempt + 1) ar rs1).1,
        (requestJsonAux env method url fuel (attempt + 1) ar rs1).2.1,
        evs1 ++ .request method url auth xsrfSel ::
          .sleep (backoffDelay attempt) ::
          (requestJsonAux env method url fuel (attempt + 1) ar rs1).2.2) := by
  conv_lhs => rw [requestJsonAux.eq_def]
  dsimp only
  rw [hh]
  dsimp only
  rw [h0]
  dsimp only
  rw [if_neg hlt]
  simp

/-! ## Claim theorems -/

/-- A fixture environment for witnesses: every request attempt succeeds with
an empty object body, every login attempt succeeds. -/
def witnessEnv : ReqEnv where
  reqs := fun _ => .resp 200 none (.obj [])
  loginSteps := fun _ _ => .ok (some "x") "tok"
  xsrfCookie := none

/-- A fixture configuration for witnesses. -/
def witnessCfg : EnvoyWebConfig := ⟨1, 2, "user@example.com", "pw"⟩

/-- C10: `EnvoyWebAuthError` is declared as a subclass of `EnvoyWebApiError`,
so every `AuthError` raised by either operation is also an `ApiError`: the two
user-visible error kinds are not disjoint, and a caller handling
`EnvoyWebApiError` also catches authentication failures unless a handler for
`EnvoyWebAuthError` is matched first. -/
theorem C10_auth_error_is_api_error (m : String) (e : PyError) (env : ReqEnv)
    (cfg : EnvoyWebConfig) (st : TokenState) (profile : String) (p : Int) :
    ExcClass.isInstanceOf .envoyWebAuthError .envoyWebApiError = true ∧
    (excMatches e .envoyWebAuthError = true → excMatches e .envoyWebApiError = true) ∧
    (∀ err, (asyncGetProfile env cfg st).1 = .error err →
      err.cls = .envoyWebAuthError → excMatches err .envoyWebApiError = true) ∧
    (∀ err, (asyncSetProfile env cfg st profile p).1 = .error err →
      err.cls = .envoyWebAuthError → excMatches err .envoyWebApiError = true) ∧
    firstHandler ⟨.envoyWebAuthError, m⟩ [.envoyWebApiError] = some .envoyWebApiError ∧
    firstHandler ⟨.envoyWebAuthError, m⟩ [.envoyWebAuthError, .envoyWebApiError] =
      some .envoyWebAuthError := by
  refine ⟨rfl, ?_, ?_, ?_, rfl, rfl⟩
  · intro hm
    obtain ⟨c, s⟩ := e
    cases c <;> simp_all [excMatches, ExcClass.isInstanceOf, ExcClass.mro]
  · intro err _ hcls
    simp [excMatches, ExcClass.isInstanceOf, hcls, ExcClass.mro]
  · intro err _ hcls
    simp [excMatches, ExcClass.isInstanceOf, hcls, ExcClass.mro]

/-- C10 witness: a concrete `EnvoyWebAuthError` is caught by an
`EnvoyWebApiError` handler. -/
theorem C10_witness :
    excMatches ⟨.envoyWebAuthError, "Authentication failed"⟩ .envoyWebApiError = true :=
  (C10_auth_error_is_api_error "Authentication failed"
    ⟨.envoyWebAuthError, "Authentication failed"⟩ witnessEnv witnessCfg ⟨none, none⟩
    "self-consumption" 0).2.1 rfl

/-- C1: `async_set_profile` raises a local `ValueError` — a class that is
neither an `EnvoyWebApiError` nor an `EnvoyWebAuthError` — before issuing any
network request, exactly when the profile is not one of
`self-consumption`/`backup_only`, or the percentage is outside 0..100, or the
profile is `backup_only` with a percentage other than 100.  (The percentage
parameter is typed `int`; the non-integer case of the claim is absorbed by the
`Int` type of the embedding.) -/
theorem C1_set_profile_validation (env : ReqEnv) (cfg : EnvoyWebConfig)
    (st : TokenState) (profile : String) (p : Int) :
    ((∃ m, (asyncSetProfile env cfg st profile p).1 = .error ⟨.valueError, m⟩) ↔
      (profile ∉ ALLOWED_PROFILES ∨ ¬(0 ≤ p ∧ p ≤ 100) ∨
        (profile = "backup_only" ∧ p ≠ 100))) ∧
    ((profile ∉ ALLOWED_PROFILES ∨ ¬(0 ≤ p ∧ p ≤ 100) ∨
        (profile = "backup_only" ∧ p ≠ 100)) →
      (asyncSetProfile env cfg st profile p).2.2 = []) ∧
    ExcClass.isInstanceOf .valueError .envoyWebApiError = false ∧
    ExcClass.isInstanceOf .valueError .envoyWebAuthError = false := by
  refine ⟨⟨?_, ?_⟩, ?_, rfl, rfl⟩
  · rintro ⟨m, hm⟩
    by_contra hno
    push_neg at hno
    obtain ⟨h1, h2, h3⟩ := hno
    unfold asyncSetProfile at hm
    rw [if_neg (not_not_intro h1), if_neg (not_not_intro h2),
      if_neg (by rintro ⟨he, hne⟩; exact hne (h3 he))] at hm
    dsimp only at hm
    rcases hq : (requestJson env "PUT" (urlPut cfg) st).1 with e | j
    · rw [hq] at hm
      injection hm with hm
      have hcls := requestJsonAux_error_cls env "PUT" (urlPut cfg)
        MAX_REQUEST_RETRIES 0 false ⟨st, 0⟩ e hq
      rw [hm] at hcls
      rcases hcls with hc | hc <;> exact absurd hc (by simp)
    · rw [hq] at hm
      simp at hm
  · intro hbad
    unfold asyncSetProfile
    by_cases hb1 : profile ∉ ALLOWED_PROFILES
    · rw [if_pos hb1]
      exact ⟨_, rfl⟩
    · rw [if_neg hb1]
      by_cases hb2 : ¬(0 ≤ p ∧ p ≤ 100)
      · rw [if_pos hb2]
        exact ⟨_, rfl⟩
      · rw [if_neg hb2]
        have hb3 : profile = "backup_only" ∧ p ≠ 100 := by
          rcases hbad with h | h | h
          · exact absurd h hb1
          · exact absurd h hb2
          · exact h
        rw [if_pos hb3]
        exact ⟨_, rfl⟩
  · intro hbad
    unfold asyncSetProfile
    by_cases hb1 : profile ∉ ALLOWED_PROFILES
    · rw [if_pos hb1]
    · rw [if_neg hb1]
      by_cases hb2 : ¬(0 ≤ p ∧ p ≤ 100)
      · rw [if_pos hb2]
      · rw [if_neg hb2]
        have hb3 : profile = "backup_only" ∧ p ≠ 100 := by
          rcases hbad with h | h | h
          · exact absurd h hb1
          · exact absurd h hb2
          · exact h
        rw [if_pos hb3]

/-- C1 witness: `backup_only` with percentage 50 is rejected locally with an
empty trace. -/
theorem C1_witness :
    (asyncSetProfile witnessEnv witnessCfg ⟨none, none⟩ "backup_only" 50).2.2 = [] :=
  (C1_set_profile_validation witnessEnv witnessCfg ⟨none, none⟩ "backup_only" 50).2.1
    (Or.inr (Or.inr ⟨rfl, by decide⟩))

/-- C8: the token cache never exposes a half state as usable:
`async_get_tokens` either returns the cached pair — whose auth component is
then non-empty, the xsrf component possibly empty — leaving the state
unchanged, or performs a login that populates both cached fields before
returning; `async_invalidate` clears the xsrf and auth tokens together and is
idempotent. -/
theorem C8_token_cache_contract (st st2 : TokenState)
    (login : Except PyError ((Option String) × String)) (x : Option String) (a : String)
    (h : (getTokens st login).1 = .ok (x, a)) :
    (((getTokens st login).2.2 = false ∧ (getTokens st login).2.1 = st ∧
        st.auth = some a ∧ a ≠ "" ∧ x = st.xsrf) ∨
      ((getTokens st login).2.2 = true ∧ login = .ok (x, a) ∧
        (getTokens st login).2.1 = ⟨x, some a⟩)) ∧
    invalidate st2 = ⟨none, none⟩ ∧
    invalidate (invalidate st2) = invalidate st2 := by
  refine ⟨?_, rfl, rfl⟩
  by_cases hst : strTruthy st.auth = true
  · unfold getTokens at h ⊢
    rw [if_pos hst] at h
    simp only [Except.ok.injEq, Prod.mk.injEq] at h
    obtain ⟨hx, ha⟩ := h
    left
    rw [if_pos hst]
    cases hsa : st.auth with
    | none =>
      rw [hsa] at hst
      simp [strTruthy] at hst
    | some v =>
      have hv : v = a := by
        rw [hsa] at ha
        simpa using ha
      subst hv
      refine ⟨rfl, rfl, rfl, ?_, hx.symm⟩
      rw [hsa] at hst
      simpa [strTruthy] using hst
  · right
    unfold getTokens at h
    rw [if_neg hst] at h
    cases hl : login with
    | error e =>
      rw [hl] at h
      dsimp only at h
      exact (Except.noConfusion h)
    | ok pr =>
      obtain ⟨x1, a1⟩ := pr
      rw [hl] at h
      dsimp only at h
      simp only [Except.ok.injEq, Prod.mk.injEq] at h
      obtain ⟨hx1, ha1⟩ := h
      subst hx1
      subst ha1
      refine ⟨?_, rfl, ?_⟩
      · unfold getTokens
        rw [if_neg hst]
      · unfold getTokens
        rw [if_neg hst]

/-- C8 witness: a populated cache is returned as-is and invalidation clears
and stays cleared. -/
theorem C8_witness :
    (((getTokens ⟨some "xs", some "tok"⟩
          (.error ⟨.envoyWebApiError, "Failed to authenticate"⟩)).2.2 = false ∧
        (getTokens ⟨some "xs", some "tok"⟩
          (.error ⟨.envoyWebApiError, "Failed to authenticate"⟩)).2.1 =
          (⟨some "xs", some "tok"⟩ : TokenState) ∧
        (⟨some "xs", some "tok"⟩ : TokenState).auth = some "tok" ∧ "tok" ≠ "" ∧
        some "xs" = (⟨some "xs", some "tok"⟩ : TokenState).xsrf) ∨
      ((getTokens ⟨some "xs", some "tok"⟩
          (.error ⟨.envoyWebApiError, "Failed to authenticate"⟩)).2.2 = true ∧
        (.error ⟨.envoyWebApiError, "Failed to authenticate"⟩ :
          Except PyError ((Option String) × String)) = .ok (some "xs", "tok") ∧
        (getTokens ⟨some "xs", some "tok"⟩
          (.error ⟨.envoyWebApiError, "Failed to authenticate"⟩)).2.1 =
          (⟨some "xs", some "tok"⟩ : TokenState))) ∧
    invalidate ⟨some "y", some "z"⟩ = (⟨none, none⟩ : TokenState) ∧
    invalidate (invalidate ⟨some "y", some "z"⟩) = invalidate ⟨some "y", some "z"⟩ :=
  C8_token_cache_contract ⟨some "xs", some "tok"⟩ ⟨some "y", some "z"⟩
    (.error ⟨.envoyWebApiError, "Failed to authenticate"⟩) (some "xs") "tok" rfl

/-- C9: a single concurrent burst of `n + 1` operations against an
unauthenticated client triggers exactly one login sequence.  The token
manager's `asyncio.Lock` wraps the whole body of `async_get_tokens`, making
each caller's check-cache-else-login critical section atomic, so the burst
executes as a sequence: the first caller performs the login and every later
caller blocks until it completes and then reads the now-populated cache; the
final state holds the tokens of that single login. -/
theorem C9_single_login_burst (n : Nat) (st : TokenState) (x : Option String) (a : String)
    (hunauth : strTruthy st.auth = false) (ha : a ≠ "") :
    burstGetTokens (n + 1) st (.ok (x, a)) = (⟨x, some a⟩, 1) := by
  unfold burstGetTokens getTokens
  simp only [hunauth, Bool.false_eq_true, if_false]
  have hc := burstGetTokens_cached (.ok (x, a)) n ⟨x, some a⟩ (by simp [strTruthy, ha])
  simp [hc]

/-- C9 witness: a burst of 3 calls on an empty cache performs exactly one
login. -/
theorem C9_witness :
    burstGetTokens 3 ⟨none, none⟩ (.ok (some "xs", "tok")) =
      ((⟨some "xs", some "tok"⟩ : TokenState), 1) :=
  C9_single_login_burst 2 ⟨none, none⟩ (some "xs") "tok" rfl (by decide)

/-- C6: the login sequence as a whole is retried only on transient transport
failures, with a fixed budget of `_MAX_TOKEN_RETRIES = 2` attempts and an
exponential backoff whose base delay doubles per attempt; an explicit
`EnvoyWebAuthError` is never retried and propagates immediately; exhausting
the transport budget surfaces a generic `EnvoyWebApiError`, not an auth
error.  The equation characterizes `_async_login_with_retry` over the
outcomes of its two possible attempts. -/
theorem C6_login_retry_policy (s0 s1 : LoginStep) :
    MAX_TOKEN_RETRIES = 2 ∧
    loginWithRetry (fun i => if i = 0 then s0 else s1) =
      (match s0 with
       | .ok x a => (.ok (x, a), [])
       | .authErr m => (.error ⟨.envoyWebAuthError, m⟩, [])
       | .transportErr =>
         match s1 with
         | .ok x a => (.ok (x, a), [backoffDelay 0])
         | .authErr m => (.error ⟨.envoyWebAuthError, m⟩, [backoffDelay 0])
         | .transportErr =>
           (.error ⟨.envoyWebApiError, "Failed to authenticate"⟩, [backoffDelay 0])) ∧
    (∀ attempt : Nat, backoffDelay (attempt + 1) = 2 * backoffDelay attempt) := by
  refine ⟨rfl, ?_, ?_⟩
  · cases s0 <;> cases s1 <;>
      simp [loginWithRetry, loginWithRetryAux, MAX_TOKEN_RETRIES]
  · intro attempt
    unfold backoffDelay
    ring

/-- C7 counterexample: the claim states the CSRF fetch GETs
`{base}/login/login-page`, but `async_fetch_xsrf_token` GETs the base portal
URL itself (api.py line 105: `self._session.get(_BASE_URL, ...)`). -/
theorem C7_counterexample :
    fetchXsrfUrl ≠ BASE_URL ++ "/login/login-page" ∧ fetchXsrfUrl = BASE_URL :=
  ⟨by decide, rfl⟩

/-- C7 (amended): the FETCH_CSRF step issues its GET to the vendor base URL
itself, not to `{base}/login/login-page`; it recovers the authenticity token
from the hidden form fields of the returned HTML, falls back to the stripped
content of a `<meta name="csrf-token">` tag when the form yields no truthy
token, raises `EnvoyWebAuthError` when neither source yields one, and that
auth error is never retried by the login retry loop. -/
theorem C7_amended_fetch_csrf (page : LoginPage) :
    fetchXsrfUrl = BASE_URL ∧
    fetchXsrfToken page =
      (if strTruthy (loginFormAuthToken page) then
        .ok ((loginFormAuthToken page).getD "")
      else if strTruthy (page.metaCsrf.map String.trim) then
        .ok ((page.metaCsrf.map String.trim).getD "")
      else .error ⟨.envoyWebAuthError, "Missing csrf-token meta tag on login page"⟩) ∧
    (∀ (m : String) (rest : Nat → LoginStep),
      loginWithRetry (fun i => if i = 0 then .authErr m else rest i) =
        (.error ⟨.envoyWebAuthError, m⟩, [])) := by
  refine ⟨rfl, ?_, ?_⟩
  · unfold fetchXsrfToken
    cases ht1 : loginFormAuthToken page with
    | some s =>
      by_cases hs : s = ""
      · subst hs
        cases hm : page.metaCsrf with
        | none => simp [strTruthy]
        | some c =>
          by_cases hc : c.trim = ""
          · simp [strTruthy, hc]
          · simp [strTruthy, hc]
      · simp [strTruthy, hs]
    | none =>
      cases hm : page.metaCsrf with
      | none => simp [strTruthy]
      | some c =>
        by_cases hc : c.trim = ""
        · simp [strTruthy, hc]
        · simp [strTruthy, hc]
  · intro m rest
    simp [loginWithRetry, loginWithRetryAux, MAX_TOKEN_RETRIES]

/-- The response body refuting C2: `batteryBackupPercentage` is the JSON
boolean `true`, which is not an integer. -/
def c2Body : Json :=
  .obj [("data", .obj [("profile", .str "self-consumption"),
    ("batteryBackupPercentage", .bool true)])]

/-- The environment refuting C2: the GET succeeds with `c2Body`. -/
def c2Env : ReqEnv where
  reqs := fun _ => .resp 200 none c2Body
  loginSteps := fun _ _ => .ok (some "x") "tok"
  xsrfCookie := none

/-- C2 counterexample: the response body lacks an integer
`batteryBackupPercentage` — the field is the JSON boolean `true` — yet
`async_get_profile` does not fail with `ApiError`: it returns the boolean
as-is, because Python's `bool` is a subclass of `int`, so the
`isinstance(battery_backup_percentage, int)` check in
`_extract_profile_details` accepts it. -/
theorem C2_counterexample :
    specGoodShape c2Body = false ∧
    (asyncGetProfile c2Env witnessCfg ⟨some "xs", some "tok"⟩).1 =
      .ok ("self-consumption", .bool true) := by
  exact ⟨rfl, rfl⟩

/-- C2 (amended): `async_get_profile` fails with an `EnvoyWebApiError`
whenever the 200-response body is not a JSON object containing a `data`
object with a non-empty string `profile` and a `batteryBackupPercentage`
passing Python's `isinstance(·, int)` check — under which a JSON boolean also
counts, `bool` being a subclass of `int`; the malformed value is never
otherwise coerced, and no further request is issued after the shape check
fails (exactly one request in the whole operation). -/
theorem C2_amended_get_profile_shape (env : ReqEnv) (cfg : EnvoyWebConfig)
    (st : TokenState) (hdr : Option String) (body : Json)
    (hst : strTruthy st.auth = true)
    (h0 : env.reqs 0 = .resp 200 hdr body)
    (hbad : pyGoodShape body = false) :
    (∃ m, (asyncGetProfile env cfg st).1 = .error ⟨.envoyWebApiError, m⟩) ∧
    countRequests (asyncGetProfile env cfg st).2.2 = 1 := by
  have hh := headersStep_cached env st 0 hst
  have hstep := requestJsonAux_step_response_gen env "GET" (urlGet cfg) 1 0 false ⟨st, 0⟩
    _ _ _ _ hh 200 hdr body h0 (by decide) (by decide)
  unfold asyncGetProfile
  dsimp only
  rw [show requestJson env "GET" (urlGet cfg) st =
      requestJsonAux env "GET" (urlGet cfg) (1 + 1) 0 false ⟨st, 0⟩ from rfl, hstep]
  cases hb : body.isDict
  · dsimp only
    refine ⟨⟨_, rfl⟩, ?_⟩
    simp [countRequests, Ev.isRequest]
  · dsimp only
    rcases extractProfileDetails_cases body with ⟨hgood, -⟩ | ⟨-, m, hm⟩
    · rw [hgood] at hbad
      cases hbad
    · refine ⟨⟨m, ?_⟩, ?_⟩
      · simp [hm]
      · simp [countRequests, Ev.isRequest]

/-- C2 witness: a 200 response whose body is an empty object (no `data`)
yields an `EnvoyWebApiError` after exactly one request. -/
theorem C2_witness :
    (∃ m, (asyncGetProfile witnessEnv witnessCfg ⟨some "xs", some "tok"⟩).1 =
      .error ⟨.envoyWebApiError, m⟩) ∧
    countRequests (asyncGetProfile witnessEnv witnessCfg ⟨some "xs", some "tok"⟩).2.2 = 1 :=
  C2_amended_get_profile_shape witnessEnv witnessCfg ⟨some "xs", some "tok"⟩ none
    (.obj []) rfl rfl rfl

/-- C5: for every percentage in 0..100 and allowed profile — excluding the
`backup_only` pair with percentage ≠ 100 — a successful `async_set_profile`
returns exactly the pair built from its own validated inputs, for every JSON
object the PUT response carries (the response body is never re-parsed for the
returned state), and issues exactly one PUT request to `_url_put`. -/
theorem C5_set_profile_echo (env : ReqEnv) (cfg : EnvoyWebConfig) (st : TokenState)
    (profile : String) (p : Int) (hdr : Option String) (body : Json)
    (hprof : profile ∈ ALLOWED_PROFILES) (hp : 0 ≤ p ∧ p ≤ 100)
    (hpair : profile = "backup_only" → p = 100)
    (hst : strTruthy st.auth = true)
    (h0 : env.reqs 0 = .resp 200 hdr body) (hbody : body.isDict = true) :
    (asyncSetProfile env cfg st profile p).1 = .ok (profile, p) ∧
    requestTargets (asyncSetProfile env cfg st profile p).2.2 = [("PUT", urlPut cfg)] := by
  have hh := headersStep_cached env st 0 hst
  have hstep := requestJsonAux_step_response_gen env "PUT" (urlPut cfg) 1 0 false ⟨st, 0⟩
    _ _ _ _ hh 200 hdr body h0 (by decide) (by decide)
  unfold asyncSetProfile
  rw [if_neg (not_not_intro hprof), if_neg (not_not_intro hp),
    if_neg (by rintro ⟨he, hne⟩; exact hne (hpair he))]
  dsimp only
  rw [show requestJson env "PUT" (urlPut cfg) st =
      requestJsonAux env "PUT" (urlPut cfg) (1 + 1) 0 false ⟨st, 0⟩ from rfl, hstep]
  rw [if_pos hbody]
  dsimp only
  refine ⟨rfl, ?_⟩
  simp [requestTargets]

/-- C5 witness: `("self-consumption", 42)` is echoed back after one PUT. -/
theorem C5_witness :
    (asyncSetProfile witnessEnv witnessCfg ⟨some "xs", some "tok"⟩
      "self-consumption" 42).1 = .ok ("self-consumption", 42) ∧
    requestTargets (asyncSetProfile witnessEnv witnessCfg ⟨some "xs", some "tok"⟩
      "self-consumption" 42).2.2 = [("PUT", urlPut witnessCfg)] :=
  C5_set_profile_echo witnessEnv witnessCfg ⟨some "xs", some "tok"⟩ "self-consumption" 42
    none (.obj []) (by decide) (by decide) (fun h => absurd h (by decide)) rfl rfl rfl

/-- C3: for every operation (both `async_get_profile` and `async_set_profile`
route through `_request_json`, here taken at an arbitrary method and URL), a
401/403 on the first attempt triggers exactly one invalidation of the token
cache and exactly one retry of the same request carrying the freshly fetched
auth token; a second consecutive 401/403 terminates the operation with
`EnvoyWebAuthError` after exactly two requests — no third attempt. -/
theorem C3_auth_retry_policy (method url : String) (st : TokenState) (envA envB : ReqEnv)
    (sA sB1 sB2 : Nat) (hdrA1 hdrA2 hdrB1 hdrB2 : Option String) (bA1 bB1 bB2 bodyA : Json)
    (x xB : Option String) (a aB : String)
    (hst : strTruthy st.auth = true)
    (hsA : sA = 401 ∨ sA = 403)
    (hA0 : envA.reqs 0 = .resp sA hdrA1 bA1)
    (hA1 : envA.reqs 1 = .resp 200 hdrA2 bodyA)
    (hAb : bodyA.isDict = true)
    (hAl : envA.loginResult 0 = .ok (x, a))
    (hsB1 : sB1 = 401 ∨ sB1 = 403) (hsB2 : sB2 = 401 ∨ sB2 = 403)
    (hB0 : envB.reqs 0 = .resp sB1 hdrB1 bB1)
    (hB1 : envB.reqs 1 = .resp sB2 hdrB2 bB2)
    (hBl : envB.loginResult 0 = .ok (xB, aB)) :
    ((requestJson envA method url st).1 = .ok bodyA ∧
      countRequests (requestJson envA method url st).2.2 = 2 ∧
      countInvalidations (requestJson envA method url st).2.2 = 1 ∧
      countLogins (requestJson envA method url st).2.2 = 1 ∧
      requestAuths (requestJson envA method url st).2.2 = [st.auth.getD "", a]) ∧
    ((requestJson envB method url st).1 =
        .error ⟨.envoyWebAuthError, "Authentication failed"⟩ ∧
      countRequests (requestJson envB method url st).2.2 = 2) := by
  constructor
  · have hh0 := headersStep_cached envA st 0 hst
    have hh1 := headersStep_login envA ⟨none, none⟩ 0 x a rfl hAl
    have hstep2 := requestJsonAux_step_response_gen envA method url 0 1 true
      ⟨⟨none, none⟩, 0⟩ _ _ _ _ hh1 200 hdrA2 bodyA hA1 (by decide) (by decide)
    have hstep1 := requestJsonAux_step_auth_retry_gen envA method url 1 0
      ⟨st, 0⟩ _ _ _ _ hh0 sA hdrA1 bA1 hA0 hsA (by decide)
    norm_num at hstep1 hstep2
    rw [show requestJson envA method url st =
        requestJsonAux envA method url 2 0 false ⟨st, 0⟩ from rfl, hstep1, hstep2]
    rw [if_pos hAb]
    refine ⟨rfl, ?_, ?_, ?_, ?_⟩ <;>
      simp [countRequests, countInvalidations, countLogins, requestAuths,
        Ev.isRequest, Ev.isInvalidation, Ev.isLogin]
  · have hh0 := headersStep_cached envB st 0 hst
    have hh1 := headersStep_login envB ⟨none, none⟩ 0 xB aB rfl hBl
    have hstep2 := requestJsonAux_step_auth_fail_gen envB method url 0 1 true
      ⟨⟨none, none⟩, 0⟩ _ _ _ _ hh1 sB2 hdrB2 bB2 hB1 hsB2 (Or.inl rfl)
    have hstep1 := requestJsonAux_step_auth_retry_gen envB method url 1 0
      ⟨st, 0⟩ _ _ _ _ hh0 sB1 hdrB1 bB1 hB0 hsB1 (by decide)
    norm_num at hstep1 hstep2
    rw [show requestJson envB method url st =
        requestJsonAux envB method url 2 0 false ⟨st, 0⟩ from rfl, hstep1, hstep2]
    refine ⟨rfl, ?_⟩
    simp [countRequests, Ev.isRequest]

/-- The environment for the C3 witness, scenario A: a 401 then a 200 with an
object body. -/
def c3EnvA : ReqEnv where
  reqs := fun n => if n = 0 then .resp 401 none .null else .resp 200 none (.obj [])
  loginSteps := fun _ _ => .ok (some "x1") "a1"
  xsrfCookie := none

/-- The environment for the C3 witness, scenario B: a 401 then a 403. -/
def c3EnvB : ReqEnv where
  reqs := fun n => if n = 0 then .resp 401 none .null else .resp 403 none .null
  loginSteps := fun _ _ => .ok (some "x1") "a1"
  xsrfCookie := none

/-- C3 witness: both scenarios at concrete environments. -/
theorem C3_witness :
    ((requestJson c3EnvA "GET" "u" ⟨some "x0", some "a0"⟩).1 = .ok (.obj []) ∧
      countRequests (requestJson c3EnvA "GET" "u" ⟨some "x0", some "a0"⟩).2.2 = 2 ∧
      countInvalidations (requestJson c3EnvA "GET" "u" ⟨some "x0", some "a0"⟩).2.2 = 1 ∧
      countLogins (requestJson c3EnvA "GET" "u" ⟨some "x0", some "a0"⟩).2.2 = 1 ∧
      requestAuths (requestJson c3EnvA "GET" "u" ⟨some "x0", some "a0"⟩).2.2 =
        ["a0", "a1"]) ∧
    ((requestJson c3EnvB "GET" "u" ⟨some "x0", some "a0"⟩).1 =
        .error ⟨.envoyWebAuthError, "Authentication failed"⟩ ∧
      countRequests (requestJson c3EnvB "GET" "u" ⟨some "x0", some "a0"⟩).2.2 = 2) :=
  C3_auth_retry_policy "GET" "u" ⟨some "x0", some "a0"⟩ c3EnvA c3EnvB 401 401 403
    none none none none .null .null .null (.obj []) (some "x1") (some "x1") "a1" "a1"
    rfl (Or.inl rfl) rfl rfl rfl rfl (Or.inl rfl) (Or.inr rfl) rfl rfl rfl

/-- The environment refuting C4: a transport failure on the first attempt,
then a 401. -/
def c4Env : ReqEnv where
  reqs := fun n => if n = 0 then .transportErr else .resp 401 none .null
  loginSteps := fun _ _ => .ok (some "x1") "a1"
  xsrfCookie := none

/-- C4 counterexample: with a transport failure on the first attempt and a
401 on the retried attempt, the operation terminates with
`EnvoyWebAuthError` after exactly 2 requests and 0 logins — the 401 is never
retried with freshly fetched tokens, because the transport retry consumed the
attempt the auth retry would need; the two budgets are one shared loop
counter, not independent. -/
theorem C4_counterexample :
    (requestJson c4Env "GET" "u" ⟨some "x0", some "a0"⟩).1 =
      .error ⟨.envoyWebAuthError, "Authentication failed"⟩ ∧
    countRequests (requestJson c4Env "GET" "u" ⟨some "x0", some "a0"⟩).2.2 = 2 ∧
    countLogins (requestJson c4Env "GET" "u" ⟨some "x0", some "a0"⟩).2.2 = 0 ∧
    (requestJson c4Env "GET" "u" ⟨some "x0", some "a0"⟩).2.2 =
      [.request "GET" "u" "a0" (some "x0"), .sleep (backoffDelay 0),
        .request "GET" "u" "a0" (some "x0"), .cacheInvalidated] :=
  ⟨rfl, rfl, rfl, rfl⟩

/-- C4 (amended): the auth retry and the transport retries draw from a single
shared budget — one loop of `_MAX_REQUEST_RETRIES = 2` total attempts — so a
transport retry consumes the attempt the auth retry would need: after one
transport retry, a first 401/403 terminates the operation with
`EnvoyWebAuthError` without any fresh-token retry, and no operation ever
issues more than `_MAX_REQUEST_RETRIES` requests. -/
theorem C4_amended_shared_budget (env : ReqEnv) (method url : String) (st : TokenState)
    (s : Nat) (hdr : Option String) (b : Json)
    (hst : strTruthy st.auth = true) (h0 : env.reqs 0 = .transportErr)
    (hs : s = 401 ∨ s = 403) (h1 : env.reqs 1 = .resp s hdr b) :
    MAX_REQUEST_RETRIES = 2 ∧
    (requestJson env method url st).1 =
      .error ⟨.envoyWebAuthError, "Authentication failed"⟩ ∧
    countRequests (requestJson env method url st).2.2 = 2 ∧
    countLogins (requestJson env method url st).2.2 = 0 ∧
    (∀ (env' : ReqEnv) (method' url' : String) (st' : TokenState),
      countRequests (requestJson env' method' url' st').2.2 ≤ MAX_REQUEST_RETRIES) := by
  have hh := headersStep_cached env st 0 hst
  have hstep1 := requestJsonAux_step_transport_gen env method url 1 0 false
    ⟨st, 0⟩ _ _ _ _ hh h0 (by decide)
  have hstep2 := requestJsonAux_step_auth_fail_gen env method url 0 1 false
    ⟨st, 0⟩ _ _ _ _ hh s hdr b h1 hs (Or.inr (by decide))
  norm_num at hstep1 hstep2
  refine ⟨rfl, ?_, ?_, ?_, ?_⟩
  · rw [show requestJson env method url st =
        requestJsonAux env method url 2 0 false ⟨st, 0⟩ from rfl, hstep1, hstep2]
  · rw [show requestJson env method url st =
        requestJsonAux env method url 2 0 false ⟨st, 0⟩ from rfl, hstep1, hstep2]
    simp [countRequests, Ev.isRequest]
  · rw [show requestJson env method url st =
        requestJsonAux env method url 2 0 false ⟨st, 0⟩ from rfl, hstep1, hstep2]
    simp [countLogins, Ev.isLogin]
  · intro env' method' url' st'
    exact requestJsonAux_request_bound env' method' url' MAX_REQUEST_RETRIES 0 false ⟨st', 0⟩

/-- C4 witness: the amended claim at the concrete refuting environment. -/
theorem C4_witness :
    MAX_REQUEST_RETRIES = 2 ∧
    (requestJson c4Env "GET" "u" ⟨some "x0", some "a0"⟩).1 =
      .error ⟨.envoyWebAuthError, "Authentication failed"⟩ ∧
    countRequests (requestJson c4Env "GET" "u" ⟨some "x0", some "a0"⟩).2.2 = 2 ∧
    countLogins (requestJson c4Env "GET" "u" ⟨some "x0", some "a0"⟩).2.2 = 0 ∧
    (∀ (env' : ReqEnv) (method' url' : String) (st' : TokenState),
      countRequests (requestJson env' method' url' st').2.2 ≤ MAX_REQUEST_RETRIES) :=
  C4_amended_shared_budget c4Env "GET" "u" ⟨some "x0", some "a0"⟩ 401 none .null
    rfl rfl (Or.inl rfl) rfl

end EnvoyWeb
